import Mathlib

/-!
Verification of the configuration-resolution logic of toil-vg
(`src/toil_vg/vg_config.py`): option-list normalization
(`make_opts_list`), preset generation (`generate_config`), document
loading and validation, and the CLI-over-config merge
(`apply_config_file_args`).

Python runtime values that flow through this module are embedded as
`PyVal`; an `argparse.Namespace.__dict__` and a parsed YAML document are
embedded as association lists `Dict` with Python-dict insert/overwrite
semantics.
-/

namespace ToilVG

/-- Embedding of the Python values that flow through `vg_config.py`:
strings, ints, bools, `None`, and (possibly nested) lists. -/
inductive PyVal where
  | str (s : String)
  | int (n : Int)
  | bool (b : Bool)
  | none
  | list (l : List PyVal)
  deriving Repr, BEq

mutual

def PyVal.decEq : (a b : PyVal) → Decidable (a = b)
  | .str s, .str t =>
    match String.decEq s t with
    | isTrue h => isTrue (by rw [h])
    | isFalse h => isFalse (by intro hc; cases hc; exact h rfl)
  | .int m, .int n =>
    match Int.instDecidableEq m n with
    | isTrue h => isTrue (by rw [h])
    | isFalse h => isFalse (by intro hc; cases hc; exact h rfl)
  | .bool a, .bool b =>
    match Bool.decEq a b with
    | isTrue h => isTrue (by rw [h])
    | isFalse h => isFalse (by intro hc; cases hc; exact h rfl)
  | .none, .none => isTrue rfl
  | .list l, .list m =>
    match PyVal.decEqList l m with
    | isTrue h => isTrue (by rw [h])
    | isFalse h => isFalse (by intro hc; cases hc; exact h rfl)
  | .str _, .int _ => isFalse (by intro h; cases h)
  | .str _, .bool _ => isFalse (by intro h; cases h)
  | .str _, .none => isFalse (by intro h; cases h)
  | .str _, .list _ => isFalse (by intro h; cases h)
  | .int _, .str _ => isFalse (by intro h; cases h)
  | .int _, .bool _ => isFalse (by intro h; cases h)
  | .int _, .none => isFalse (by intro h; cases h)
  | .int _, .list _ => isFalse (by intro h; cases h)
  | .bool _, .str _ => isFalse (by intro h; cases h)
  | .bool _, .int _ => isFalse (by intro h; cases h)
  | .bool _, .none => isFalse (by intro h; cases h)
  | .bool _, .list _ => isFalse (by intro h; cases h)
  | .none, .str _ => isFalse (by intro h; cases h)
  | .none, .int _ => isFalse (by intro h; cases h)
  | .none, .bool _ => isFalse (by intro h; cases h)
  | .none, .list _ => isFalse (by intro h; cases h)
  | .list _, .str _ => isFalse (by intro h; cases h)
  | .list _, .int _ => isFalse (by intro h; cases h)
  | .list _, .bool _ => isFalse (by intro h; cases h)
  | .list _, .none => isFalse (by intro h; cases h)

def PyVal.decEqList : (l m : List PyVal) → Decidable (l = m)
  | [], [] => isTrue rfl
  | [], _ :: _ => isFalse (by intro h; cases h)
  | _ :: _, [] => isFalse (by intro h; cases h)
  | a :: l, b :: m =>
    match PyVal.decEq a b with
    | isTrue h1 =>
      match PyVal.decEqList l m with
      | isTrue h2 => isTrue (by rw [h1, h2])
      | isFalse h2 => isFalse (by intro hc; cases hc; exact h2 rfl)
    | isFalse h1 => isFalse (by intro hc; cases hc; exact h1 rfl)

end

instance : DecidableEq PyVal := PyVal.decEq

/-- Python truthiness (`bool(v)`) for the embedded values: a string is
truthy iff non-empty, an int iff non-zero, `None` is falsy, a list is
truthy iff non-empty. -/
def truthy : PyVal → Bool
  | .str s => s.length != 0
  | .int n => n != 0
  | .bool b => b
  | .none => false
  | .list l => !l.isEmpty

/-- A Python dict (or `argparse.Namespace.__dict__`) as an association
list in insertion order. -/
abbrev Dict := List (String × PyVal)

/-- Value of key `k` in the dict (first matching entry). -/
def lookupD (d : Dict) (k : String) : Option PyVal :=
  match d with
  | [] => Option.none
  | (k1, v) :: rest => if k1 = k then some v else lookupD rest k

/-- Python dict membership test (`k in d`). -/
def containsKey (d : Dict) (k : String) : Bool :=
  match d with
  | [] => false
  | (k1, _) :: rest => k1 = k || containsKey rest k

/-- Python dict assignment `d[k] = v`: overwrite in place if the key is
present, append otherwise. -/
def insertD (d : Dict) (k : String) (v : PyVal) : Dict :=
  match d with
  | [] => [(k, v)]
  | (k1, v1) :: rest => if k1 = k then (k, v) :: rest else (k1, v1) :: insertD rest k v

/-- Build a dict from key/value pairs, later entries overwriting
earlier ones (Python dict-comprehension semantics). -/
def dictOf (l : List (String × PyVal)) : Dict :=
  l.foldl (fun d kv => insertD d kv.1 kv.2) []

/-! ### `make_opts_list` -/

/-- Python `s.split(' ')` on a character list: split at every single
space character, keeping empty fields. -/
def splitSpacesAux : List Char → List Char → List String
  | [], acc => [acc.reverse.asString]
  | c :: rest, acc =>
    if c = ' ' then acc.reverse.asString :: splitSpacesAux rest []
    else splitSpacesAux rest (c :: acc)

/-- `del l[pos:pos+2]` after `pos = l.index(t)`: remove the first
occurrence of flag `t` together with the single element after it; the
list is unchanged when `t` does not occur. -/
def stripFlag (t : String) : List String → List String
  | [] => []
  | a :: rest => if a = t then rest.drop 1 else a :: stripFlag t rest

/-- `make_opts_list` from `vg_config.py`: split the string on the space
character, drop empty tokens, then strip a `-t` flag pair and a
`--threads` flag pair (in that order). -/
def makeOptsList (s : String) : List String :=
  let toks := (splitSpacesAux s.toList []).filter (fun a => a.length != 0)
  stripFlag "--threads" (stripFlag "-t" toks)

/-! ### Normalization of CLI `*_opts` values -/

/-- The enumerated sequence-typed option keys from
`apply_config_file_args`. -/
def xOptsKeys : List String :=
  ["map_opts", "call_opts", "filter_opts", "genotype_opts", "vcfeval_opts",
   "sim_opts", "bwa_opts", "kmers_opts", "gcsa_opts", "mpmap_opts", "augment_opts"]

/-- Per-value normalization applied to sequence-typed options: a string
value is tokenized by `makeOptsList`; any other value (in particular an
already-built list) is left untouched, mirroring the
`type(args.__dict__[x_opts]) is str` guard. -/
def normStrVal : PyVal → PyVal
  | .str s => .list ((makeOptsList s).map PyVal.str)
  | v => v

/-- One step of the `for x_opts in [...]` loop: replace the value at key
`k` when it is a string. -/
def normOptsStep (a : Dict) (k : String) : Dict :=
  match lookupD a k with
  | some (.str s) => insertD a k (.list ((makeOptsList s).map PyVal.str))
  | _ => a

/-- The `more_mpmap_opts` pass: when the entry is present and truthy,
tokenize each string element of the list in place. -/
def normMoreMpmap (a : Dict) : Dict :=
  match lookupD a "more_mpmap_opts" with
  | some (PyVal.list l) =>
    if truthy (PyVal.list l) then insertD a "more_mpmap_opts" (PyVal.list (l.map normStrVal))
    else a
  | _ => a

/-- The in-place normalization prefix of `apply_config_file_args`:
tokenize every string-valued `*_opts` entry, then tokenize the string
elements of a truthy `more_mpmap_opts` list. -/
def normalizeArgsOpts (args : Dict) : Dict :=
  normMoreMpmap (xOptsKeys.foldl normOptsStep args)

/-! ### The merge step -/

/-- One iteration of the merge loop: the CLI entry overwrites the
options entry iff the CLI value is truthy or the key is absent from the
options dict. -/
def mergeStep (opts : Dict) (kv : String × PyVal) : Dict :=
  if truthy kv.2 || !containsKey opts kv.1 then insertD opts kv.1 kv.2 else opts

/-- The merge loop of `apply_config_file_args`: fold the CLI argument
entries over the parsed-config options dict. -/
def mergeArgs (opts : Dict) (args : Dict) : Dict :=
  args.foldl mergeStep opts

/-! ### A model of `yaml.load` for the document subset this module uses

`yaml.load` is an external library call.  It is modelled here, for the
flat-mapping subset of YAML that the presets and user documents of this
module use (comments, blank lines, `key: value` lines with int / bool /
plain or quoted string / flow-list / nested flow-list values), following
section 6 of the specification ("Input document format").
-/

/-- The single-quote character used by the documents. -/
def quoteChar : Char := Char.ofNat 39

/-- Strip leading and trailing spaces. -/
def trimSpaces (cs : List Char) : List Char :=
  ((cs.dropWhile (fun c => c = ' ')).reverse.dropWhile (fun c => c = ' ')).reverse

/-- Accumulate decimal digits; fails on a non-digit. -/
def parseNatAux : List Char → Nat → Option Nat
  | [], acc => some acc
  | c :: rest, acc =>
    if c.isDigit then parseNatAux rest (acc * 10 + (c.toNat - 48)) else Option.none

/-- Parse an optionally negated run of decimal digits. -/
def parseIntPlain (cs : List Char) : Option Int :=
  match cs with
  | [] => Option.none
  | c :: rest =>
    if c = '-' then
      match rest with
      | [] => Option.none
      | _ => (parseNatAux rest 0).map (fun n => -(n : Int))
    else (parseNatAux cs 0).map (fun n => (n : Int))

/-- Scan a single-quoted scalar: `cs` starts right after the opening
quote; returns the content and the remainder after the closing quote. -/
def scanQuoted (cs : List Char) : Option (String × List Char) :=
  let content := cs.takeWhile (fun c => c ≠ quoteChar)
  match cs.dropWhile (fun c => c ≠ quoteChar) with
  | [] => Option.none
  | _ :: rest => some (content.asString, rest)

/-- Parse the items of a flow list (input starts right after the opening
bracket); items are quoted scalars or nested flow lists.  `fuel` bounds
the recursion depth. -/
def parseItems : Nat → List Char → Option (List PyVal × List Char)
  | 0, _ => Option.none
  | fuel + 1, cs =>
    match cs.dropWhile (fun c => c = ' ') with
    | [] => Option.none
    | c :: rest =>
      if c = ']' then some ([], rest)
      else
        match (if c = quoteChar then (scanQuoted rest).map (fun p => (PyVal.str p.1, p.2))
               else if c = '[' then (parseItems fuel rest).map (fun p => (PyVal.list p.1, p.2))
               else Option.none) with
        | Option.none => Option.none
        | some (item, rest2) =>
          match rest2.dropWhile (fun ch => ch = ' ') with
          | ',' :: rest3 =>
            match parseItems fuel rest3 with
            | some (items, rest4) => some (item :: items, rest4)
            | Option.none => Option.none
          | ']' :: rest3 => some ([item], rest3)
          | _ => Option.none

/-- Parse a scalar or flow-list value. -/
def parseValue (cs0 : List Char) : Option PyVal :=
  let cs := trimSpaces cs0
  match cs with
  | [] => some PyVal.none
  | c :: rest =>
    if c = quoteChar then
      match scanQuoted rest with
      | some (s, rest2) => if trimSpaces rest2 = [] then some (PyVal.str s) else Option.none
      | Option.none => Option.none
    else if c = '[' then
      match parseItems (rest.length + 1) rest with
      | some (items, rest2) => if trimSpaces rest2 = [] then some (PyVal.list items) else Option.none
      | Option.none => Option.none
    else
      let s := cs.asString
      if s = "True" then some (PyVal.bool true)
      else if s = "False" then some (PyVal.bool false)
      else
        match parseIntPlain cs with
        | some n => some (PyVal.int n)
        | Option.none => some (PyVal.str s)

/-- Result of reading a single document line. -/
inductive LineParse where
  | skip
  | kv (k : String) (v : PyVal)
  | err
  deriving Repr, DecidableEq

/-- Read one document line: blank lines and `#` comments are skipped;
otherwise the line is split at the first colon into key and value. -/
def parseLine (line : String) : LineParse :=
  let cs := trimSpaces line.toList
  match cs with
  | [] => LineParse.skip
  | c :: _ =>
    if c = '#' then LineParse.skip
    else
      let key := cs.takeWhile (fun ch => ch ≠ ':')
      match cs.dropWhile (fun ch => ch ≠ ':') with
      | [] => LineParse.err
      | _ :: valCs =>
        match parseValue valCs with
        | some v => LineParse.kv (trimSpaces key).asString v
        | Option.none => LineParse.err

/-- Parse a whole document (given as its list of lines) into key/value
pairs in document order. -/
def parseDocLines (lines : List String) : Option (List (String × PyVal)) :=
  lines.foldr
    (fun line acc =>
      match parseLine line with
      | LineParse.skip => acc
      | LineParse.err => Option.none
      | LineParse.kv k v => acc.map (fun kvs => (k, v) :: kvs))
    (some [])

/-! ### The preset documents (`default_config`, `whole_genome_config`) -/

def defaultConfigLines (docker : Bool) : List String :=
  ["",
   "# Toil VG Pipeline configuration file (created by toil-vg generate-config)",
   "# This configuration file is formatted in YAML. Simply write the value (at least one space) after the colon.",
   "# Edit the values in the configuration file and then rerun the pipeline: \"toil-vg run\"",
   "# ",
   "# URLs can take the form: \"/\", \"s3://\"",
   "# Local inputs follow the URL convention: \"/full/path/to/input.txt\"",
   "# S3 URLs follow the convention: \"s3://bucket/directory/file.txt\"",
   "#",
   "# Comments (beginning with #) do not need to be removed. ",
   "# Command-line options take priority over parameters in this file.  ",
   "######################################################################################################################",
   "",
   "###########################################",
   "### Toil resource tuning                ###",
   "",
   "# These parameters must be adjusted based on data and cluster size",
   "# when running on anything other than single-machine mode",
   "",
   "# TODO: Reduce number of parameters here.  Seems fine grained, especially for disk/mem",
   "# option to spin off config files for small/medium/large datasets?   ",
   "",
   "# The following parameters assign resources to small helper jobs that typically don\x27t do ",
   "    # do any computing outside of toil overhead.  Generally do not need to be changed. ",
   "misc-cores: 1",
   "misc-mem: \x271G\x27",
   "misc-disk: \x271G\x27",
   "",
   "# Resources allotted for vg construction.",
   "construct-cores: 1",
   "construct-mem: \x274G\x27",
   "construct-disk: \x272G\x27",
   "",
   "# Resources allotted for xg indexing.",
   "# this stage generally cannot take advantage of more than one thread except GBWT",
   "xg-index-cores: 1",
   "xg-index-mem: \x274G\x27",
   "xg-index-disk: \x272G\x27",
   "",
   "# Resources allotted for gcsa pruning.  Note that the vg mod commands used in",
   "# this stage generally cannot take advantage of more than one thread",
   "prune-cores: 1",
   "prune-mem: \x274G\x27",
   "prune-disk: \x272G\x27",
   "",
   "# Resources allotted for gcsa kmers.  ",
   "kmers-cores: 1",
   "kmers-mem: \x274G\x27",
   "kmers-disk: \x272G\x27",
   "",
   "# Resources allotted gcsa indexing",
   "gcsa-index-cores: 1",
   "gcsa-index-mem: \x274G\x27",
   "gcsa-index-disk: \x272G\x27",
   "",
   "# Resources for fastq splitting and gam merging",
   "# Important to assign as many cores as possible here for large fastq inputs",
   "fq-split-cores: 1",
   "fq-split-mem: \x274G\x27",
   "fq-split-disk: \x272G\x27",
   "",
   "# Number of threads to use for Rocksdb GAM indexing",
   "# Generally, this should be kept low as speedup drops off radically ",
   "# after a few threads.",
   "gam-index-cores: 1",
   "",
   "# Resources for *each* vg map job",
   "# the number of vg map jobs is controlled by reads-per-chunk (below)",
   "alignment-cores: 1",
   "alignment-mem: \x274G\x27",
   "alignment-disk: \x272G\x27",
   "",
   "# Resources for chunking up a graph/gam for calling (and merging)",
   "# typically take xg for whoe grpah, and gam for a chromosome,",
   "# and split up into chunks of call-chunk-size (below)",
   "call-chunk-cores: 1",
   "call-chunk-mem: \x274G\x27",
   "call-chunk-disk: \x272G\x27",
   "",
   "# Resources for calling each chunk (currently includes augment/call/genotype)",
   "calling-cores: 1",
   "calling-mem: \x274G\x27",
   "calling-disk: \x272G\x27",
   "",
   "# Resources for vcfeval",
   "vcfeval-cores: 1",
   "vcfeval-mem: \x274G\x27",
   "vcfeval-disk: \x272G\x27",
   "",
   "# Resources for vg sim",
   "sim-cores: 2",
   "sim-mem: \x274G\x27",
   "sim-disk: \x272G\x27",
   "",
   "###########################################",
   "### Arguments Shared Between Components ###",
   "# Use output store instead of toil for all intermediate files (use only for debugging)",
   "force-outstore: False",
   "",
   "# Toggle container support.  Valid values are Docker / Singularity / None",
   "# (commenting out or Null values equivalent to None)",
   ("container: " ++ (if docker then "Docker" else "None")),
   "",
   "#############################",
   "### Docker Tool Arguments ###",
   "",
   "## Docker Tool List ##",
   "##   Locations of docker images. ",
   "##   If empty or commented, then the tool will be run directly from the command line instead",
   "##   of through docker. ",
   "",
   "# Docker image to use for vg",
   "vg-docker: \x27quay.io/vgteam/vg:v1.6.0-442-gd3a69a42-t134-run\x27",
   "",
   "# Docker image to use for bcftools",
   "bcftools-docker: \x27vandhanak/bcftools:1.3.1\x27",
   "",
   "# Docker image to use for tabix",
   "tabix-docker: \x27vandhanak/bcftools:1.3.1\x27",
   "",
   "# Docker image to use for samtools",
   "samtools-docker: \x27quay.io/ucsc_cgl/samtools:latest\x27",
   "",
   "# Docker image to use for bwa",
   "bwa-docker: \x27quay.io/ucsc_cgl/bwa:latest\x27",
   "",
   "# Docker image to use for jq",
   "jq-docker: \x27devorbitus/ubuntu-bash-jq-curl\x27",
   "",
   "# Docker image to use for rtg",
   "rtg-docker: \x27realtimegenomics/rtg-tools:3.8.4\x27",
   "",
   "# Docker image to use for pigz",
   "pigz-docker: \x27quay.io/glennhickey/pigz:latest\x27",
   "",
   "# Docker image to use to run R scripts",
   "r-docker: \x27rocker/tidyverse:latest\x27",
   "",
   "# Docker image to use for vcflib",
   "vcflib-docker: \x27quay.io/biocontainers/vcflib:1.0.0_rc1--0\x27",
   "",
   "# Docker image to use for Freebayes",
   "freebayes-docker: \x27maxulysse/freebayes:1.2.5\x27",
   "",
   "##########################",
   "### vg_index Arguments ###",
   "",
   "# Name of index output files.  ex <name>.xg, <name>.gcsa etc. ",
   "index-name: \x27genome\x27",
   "",
   "# Options to pass to vg mod for pruning phase.",
   "# The primary path(s) will always be added back onto the pruned grpah",
   "# Phase skipped if empty.  If list of lists, mod commands will be chained together",
   "prune-opts: [[\x27-D\x27], [\x27-p\x27, \x27-l\x27, \x2716\x27, \x27-S\x27, \x27-e\x27, \x275\x27], [\x27-S\x27, \x27-l\x27, \x2732\x27]]",
   "",
   "# Options to pass to vg kmers.",
   "kmers-opts: [\x27-g\x27, \x27-B\x27, \x27-k\x27, \x2716\x27]",
   "",
   "# Options to pass to vg gcsa indexing",
   "gcsa-opts: [\x27-X\x27, \x273\x27, \x27-Z\x27, \x273000\x27]",
   "",
   "########################",
   "### vg_map Arguments ###",
   "",
   "# Toggle whether reads are split into chunks",
   "single-reads-chunk: False",
   "",
   "# Number of reads per chunk to use when splitting up fastq.",
   "# (only applies if single-reads-chunk is False)",
   "# Each chunk will correspond to a vg map job",
   "reads-per-chunk: 10000000",
   "",
   "# Core arguments for vg mapping (do not include file names or -t/--threads)",
   "# Note -i/--interleaved will be ignored. use the --interleaved option ",
   "# on the toil-vg command line instead",
   "map-opts: []",
   "",
   "# Core arguments for vg multipath mapping (do not include file names or -t/--threads)",
   "mpmap-opts: [\x27-S\x27]",
   "",
   "#########################",
   "### vg_call Arguments ###",
   "# Overlap option that is passed into make_chunks and call_chunk",
   "overlap: 2000",
   "",
   "# Chunk size",
   "call-chunk-size: 2000000",
   "",
   "# Context expansion used for graph chunking",
   "chunk_context: 50",
   "",
   "# Options to pass to vg filter when running vg call. (do not include file names or -t/--threads)",
   "filter-opts: [\x27-r\x27, \x270.9\x27, \x27-fu\x27, \x27-s\x27, \x271000\x27, \x27-m\x27, \x271\x27, \x27-q\x27, \x2715\x27, \x27-D\x27, \x27999\x27]",
   "",
   "# Options to pass to vg augment. (do not include any file names or -t/--threads or -a/--augmentation-mode)",
   "augment-opts: [\x27-q\x27, \x2710\x27]",
   "",
   "# Options to pass to vg call. (do not include file/contig/sample names or -t/--threads)",
   "call-opts: []",
   "",
   "# Options to pass to vg genotype. (do not include file/contig/sample names or -t/--threads)",
   "genotype-opts: []",
   "",
   "# Use vg genotype instead of vg call",
   "genotype: False",
   "",
   "#########################",
   "### vcfeval Arguments ###",
   "# Options to pass to rgt vcfeval. (do not include filenaems or threads or BED)",
   "vcfeval-opts: [\x27--ref-overlap\x27, \x27--vcf-score-field\x27, \x27QUAL\x27]",
   "",
   "#########################",
   "### sim and mapeval Arguments ###",
   "# Options to pass to vg sim (should not include -x, -n, -s or -a)",
   "sim-opts: [\x27-l\x27, \x27150\x27, \x27-p\x27, \x27570\x27, \x27-v\x27, \x27165\x27, \x27-e\x27, \x270.01\x27, \x27-i\x27, \x270.002\x27]",
   "",
   "# Options to pass to bwa",
   "bwa-opts: []",
   "",
   ""]

def wholeGenomeConfigLines (docker : Bool) : List String :=
  ["",
   "# Toil VG Pipeline configuration file (created by toil-vg generate-config)",
   "# This configuration file is formatted in YAML. Simply write the value (at least one space) after the colon.",
   "# Edit the values in the configuration file and then rerun the pipeline: \"toil-vg run\"",
   "# ",
   "# URLs can take the form: \"/\", \"s3://\"",
   "# Local inputs follow the URL convention: \"/full/path/to/input.txt\"",
   "# S3 URLs follow the convention: \"s3://bucket/directory/file.txt\"",
   "#",
   "# Comments (beginning with #) do not need to be removed. ",
   "# Command-line options take priority over parameters in this file.  ",
   "######################################################################################################################",
   "",
   "###########################################",
   "### Toil resource tuning                ###",
   "",
   "# These parameters must be adjusted based on data and cluster size",
   "# when running on anything other than single-machine mode",
   "",
   "# TODO: Reduce number of parameters here.  Seems fine grained, especially for disk/mem",
   "# option to spin off config files for small/medium/large datasets?   ",
   "",
   "# The following parameters assign resources to small helper jobs that typically don\x27t do ",
   "    # do any computing outside of toil overhead.  Generally do not need to be changed. ",
   "misc-cores: 1",
   "misc-mem: \x271G\x27",
   "misc-disk: \x271G\x27",
   "",
   "# Resources allotted for vg construction.",
   "construct-cores: 1",
   "construct-mem: \x2732G\x27",
   "construct-disk: \x2732G\x27",
   "",
   "# Resources allotted for xg indexing.",
   "# this stage generally cannot take advantage of more than one thread except GBWT",
   "xg-index-cores: 32",
   "xg-index-mem: \x27200G\x27",
   "xg-index-disk: \x27200G\x27",
   "",
   "# Resources allotted for gcsa pruning.  Note that the vg mod commands used in",
   "# this stage generally cannot take advantage of more than one thread",
   "prune-cores: 2",
   "prune-mem: \x2760G\x27",
   "prune-disk: \x2760G\x27",
   "",
   "# Resources allotted for gcsa kmers.  ",
   "kmers-cores: 16",
   "kmers-mem: \x2770G\x27",
   "kmers-disk: \x2760G\x27",
   "",
   "# Resources allotted gcsa indexing",
   "# Note for a whole genome 1kg graph, need about 3000G of disk",
   "gcsa-index-cores: 32",
   "gcsa-index-mem: \x27200G\x27",
   "gcsa-index-disk: \x27200G\x27",
   "",
   "# Resources for fastq splitting and gam merging",
   "# Important to assign as many cores as possible here for large fastq inputs",
   "fq-split-cores: 32",
   "fq-split-mem: \x274G\x27",
   "fq-split-disk: \x27200G\x27",
   "",
   "# Number of threads to use for Rocksdb GAM indexing",
   "# Generally, this should be kept low as speedup drops off radically ",
   "# after a few threads.",
   "gam-index-cores: 6",
   "",
   "# Resources for *each* vg map job",
   "# the number of vg map jobs is controlled by reads-per-chunk (below)",
   "alignment-cores: 32",
   "alignment-mem: \x27100G\x27",
   "alignment-disk: \x27100G\x27",
   "",
   "# Resources for chunking up a graph/gam for calling (and merging)",
   "# typically take xg for whoe grpah, and gam for a chromosome,",
   "# and split up into chunks of call-chunk-size (below)",
   "call-chunk-cores: 8",
   "call-chunk-mem: \x27100G\x27",
   "call-chunk-disk: \x27100G\x27",
   "",
   "# Resources for calling each chunk (currently includes augment/call/genotype)",
   "calling-cores: 2",
   "calling-mem: \x2732G\x27",
   "calling-disk: \x278G\x27",
   "",
   "# Resources for vcfeval",
   "vcfeval-cores: 32",
   "vcfeval-mem: \x2764G\x27",
   "vcfeval-disk: \x2764G\x27",
   "",
   "# Resources for vg sim",
   "sim-cores: 2",
   "sim-mem: \x2760G\x27",
   "sim-disk: \x27200G\x27",
   "",
   "###########################################",
   "### Arguments Shared Between Components ###",
   "# Use output store instead of toil for all intermediate files (use only for debugging)",
   "force-outstore: False",
   "",
   "# Toggle container support.  Valid values are Docker / Singularity / None",
   "# (commenting out or Null values equivalent to None)",
   ("container: " ++ (if docker then "Docker" else "None")),
   "",
   "#############################",
   "### Docker Tool Arguments ###",
   "",
   "## Docker Tool List ##",
   "##   Locations of docker images. ",
   "##   If empty or commented, then the tool will be run directly from the command line instead",
   "##   of through docker. ",
   "",
   "# Docker image to use for vg",
   "vg-docker: \x27quay.io/vgteam/vg:v1.6.0-442-gd3a69a42-t134-run\x27",
   "",
   "# Docker image to use for bcftools",
   "bcftools-docker: \x27vandhanak/bcftools:1.3.1\x27",
   "",
   "# Docker image to use for tabix",
   "tabix-docker: \x27vandhanak/bcftools:1.3.1\x27",
   "",
   "# Docker image to use for samtools",
   "samtools-docker: \x27quay.io/ucsc_cgl/samtools:latest\x27",
   "",
   "# Docker image to use for bwa",
   "bwa-docker: \x27quay.io/ucsc_cgl/bwa:latest\x27",
   "",
   "# Docker image to use for jq",
   "jq-docker: \x27devorbitus/ubuntu-bash-jq-curl\x27",
   "",
   "# Docker image to use for rtg",
   "rtg-docker: \x27realtimegenomics/rtg-tools:3.8.4\x27",
   "",
   "# Docker image to use for pigz",
   "pigz-docker: \x27quay.io/glennhickey/pigz:latest\x27",
   "",
   "# Docker image to use to run R scripts",
   "r-docker: \x27rocker/tidyverse:latest\x27",
   "",
   "# Docker image to use for vcflib",
   "vcflib-docker: \x27quay.io/biocontainers/vcflib:1.0.0_rc1--0\x27",
   "",
   "# Docker image to use for Freebayes",
   "freebayes-docker: \x27maxulysse/freebayes:1.2.5\x27",
   "",
   "##########################",
   "### vg_index Arguments ###",
   "",
   "# Name of index output files.  ex <name>.xg, <name>.gcsa etc. ",
   "index-name: \x27genome\x27",
   "",
   "# Options to pass to vg mod for pruning phase.",
   "# The primary path(s) will always be added back onto the pruned grpah",
   "# Phase skipped if empty.  If list of lists, mod commands will be chained together",
   "prune-opts: [[\x27-D\x27], [\x27-p\x27, \x27-l\x27, \x2716\x27, \x27-S\x27, \x27-e\x27, \x274\x27], [\x27-S\x27, \x27-l\x27, \x2732\x27]]",
   "",
   "# Options to pass to vg kmers.",
   "kmers-opts: [\x27-g\x27, \x27-B\x27, \x27-k\x27, \x2716\x27]",
   "",
   "# Options to pass to vg gcsa indexing",
   "gcsa-opts: [\x27-X\x27, \x273\x27, \x27-Z\x27, \x273000\x27]",
   "",
   "########################",
   "### vg_map Arguments ###",
   "",
   "# Toggle whether reads are split into chunks",
   "single-reads-chunk: False",
   "",
   "# Number of reads per chunk to use when splitting up fastq.",
   "# (only applies if single-reads-chunk is False)",
   "# Each chunk will correspond to a vg map job",
   "reads-per-chunk: 50000000",
   "",
   "# Core arguments for vg mapping (do not include file names or -t/--threads)",
   "# Note -i/--interleaved will be ignored. use the --interleaved option ",
   "# on the toil-vg command line instead",
   "map-opts: []",
   "",
   "# Core arguments for vg multipath mapping (do not include file names or -t/--threads)",
   "mpmap-opts: [\x27-S\x27]",
   "",
   "#########################",
   "### vg_call Arguments ###",
   "# Overlap option that is passed into make_chunks and call_chunk",
   "overlap: 5000",
   "",
   "# Chunk size",
   "call-chunk-size: 2000000",
   "",
   "# Context expansion used for graph chunking",
   "chunk_context: 50",
   "",
   "# Options to pass to vg filter when running vg call. (do not include file names or -t/--threads)",
   "filter-opts: [\x27-r\x27, \x270.9\x27, \x27-fu\x27, \x27-s\x27, \x271000\x27, \x27-m\x27, \x271\x27, \x27-q\x27, \x2715\x27, \x27-D\x27, \x27999\x27]",
   "",
   "# Options to pass to vg augment. (do not include any file names or -t/--threads or -a/--augmentation-mode)",
   "augment-opts: [\x27-q\x27, \x2710\x27]",
   "",
   "# Options to pass to vg call. (do not include file/contig/sample names or -t/--threads)",
   "call-opts: []",
   "",
   "# Options to pass to vg genotype. (do not include file/contig/sample names or -t/--threads)",
   "genotype-opts: []",
   "",
   "# Use vg genotype instead of vg call",
   "genotype: False",
   "",
   "#########################",
   "### vcfeval Arguments ###",
   "# Options to pass to rgt vcfeval. (do not include filenaems or threads or BED)",
   "vcfeval-opts: [\x27--ref-overlap\x27, \x27--vcf-score-field\x27, \x27QUAL\x27]",
   "",
   "#########################",
   "### sim and mapeval Arguments ###",
   "# Options to pass to vg sim (should not include -x, -n, -s or -a)",
   "sim-opts: [\x27-l\x27, \x27150\x27, \x27-p\x27, \x27570\x27, \x27-v\x27, \x27165\x27, \x27-e\x27, \x270.01\x27, \x27-i\x27, \x270.002\x27]",
   "",
   "# Options to pass to bwa",
   "bwa-opts: []",
   "",
   "",
   ""]

def presetMapDefault (docker : Bool) : Dict :=
  [("misc_cores", PyVal.int 1),
   ("misc_mem", PyVal.str "1G"),
   ("misc_disk", PyVal.str "1G"),
   ("construct_cores", PyVal.int 1),
   ("construct_mem", PyVal.str "4G"),
   ("construct_disk", PyVal.str "2G"),
   ("xg_index_cores", PyVal.int 1),
   ("xg_index_mem", PyVal.str "4G"),
   ("xg_index_disk", PyVal.str "2G"),
   ("prune_cores", PyVal.int 1),
   ("prune_mem", PyVal.str "4G"),
   ("prune_disk", PyVal.str "2G"),
   ("kmers_cores", PyVal.int 1),
   ("kmers_mem", PyVal.str "4G"),
   ("kmers_disk", PyVal.str "2G"),
   ("gcsa_index_cores", PyVal.int 1),
   ("gcsa_index_mem", PyVal.str "4G"),
   ("gcsa_index_disk", PyVal.str "2G"),
   ("fq_split_cores", PyVal.int 1),
   ("fq_split_mem", PyVal.str "4G"),
   ("fq_split_disk", PyVal.str "2G"),
   ("gam_index_cores", PyVal.int 1),
   ("alignment_cores", PyVal.int 1),
   ("alignment_mem", PyVal.str "4G"),
   ("alignment_disk", PyVal.str "2G"),
   ("call_chunk_cores", PyVal.int 1),
   ("call_chunk_mem", PyVal.str "4G"),
   ("call_chunk_disk", PyVal.str "2G"),
   ("calling_cores", PyVal.int 1),
   ("calling_mem", PyVal.str "4G"),
   ("calling_disk", PyVal.str "2G"),
   ("vcfeval_cores", PyVal.int 1),
   ("vcfeval_mem", PyVal.str "4G"),
   ("vcfeval_disk", PyVal.str "2G"),
   ("sim_cores", PyVal.int 2),
   ("sim_mem", PyVal.str "4G"),
   ("sim_disk", PyVal.str "2G"),
   ("force_outstore", PyVal.bool false),
   ("container", PyVal.str (if docker then "Docker" else "None")),
   ("vg_docker", PyVal.str "quay.io/vgteam/vg:v1.6.0-442-gd3a69a42-t134-run"),
   ("bcftools_docker", PyVal.str "vandhanak/bcftools:1.3.1"),
   ("tabix_docker", PyVal.str "vandhanak/bcftools:1.3.1"),
   ("samtools_docker", PyVal.str "quay.io/ucsc_cgl/samtools:latest"),
   ("bwa_docker", PyVal.str "quay.io/ucsc_cgl/bwa:latest"),
   ("jq_docker", PyVal.str "devorbitus/ubuntu-bash-jq-curl"),
   ("rtg_docker", PyVal.str "realtimegenomics/rtg-tools:3.8.4"),
   ("pigz_docker", PyVal.str "quay.io/glennhickey/pigz:latest"),
   ("r_docker", PyVal.str "rocker/tidyverse:latest"),
   ("vcflib_docker", PyVal.str "quay.io/biocontainers/vcflib:1.0.0_rc1--0"),
   ("freebayes_docker", PyVal.str "maxulysse/freebayes:1.2.5"),
   ("index_name", PyVal.str "genome"),
   ("prune_opts", PyVal.list [PyVal.list [PyVal.str "-D"], PyVal.list [PyVal.str "-p", PyVal.str "-l", PyVal.str "16", PyVal.str "-S", PyVal.str "-e", PyVal.str "5"], PyVal.list [PyVal.str "-S", PyVal.str "-l", PyVal.str "32"]]),
   ("kmers_opts", PyVal.list [PyVal.str "-g", PyVal.str "-B", PyVal.str "-k", PyVal.str "16"]),
   ("gcsa_opts", PyVal.list [PyVal.str "-X", PyVal.str "3", PyVal.str "-Z", PyVal.str "3000"]),
   ("single_reads_chunk", PyVal.bool false),
   ("reads_per_chunk", PyVal.int 10000000),
   ("map_opts", PyVal.list []),
   ("mpmap_opts", PyVal.list [PyVal.str "-S"]),
   ("overlap", PyVal.int 2000),
   ("call_chunk_size", PyVal.int 2000000),
   ("chunk_context", PyVal.int 50),
   ("filter_opts", PyVal.list [PyVal.str "-r", PyVal.str "0.9", PyVal.str "-fu", PyVal.str "-s", PyVal.str "1000", PyVal.str "-m", PyVal.str "1", PyVal.str "-q", PyVal.str "15", PyVal.str "-D", PyVal.str "999"]),
   ("augment_opts", PyVal.list [PyVal.str "-q", PyVal.str "10"]),
   ("call_opts", PyVal.list []),
   ("genotype_opts", PyVal.list []),
   ("genotype", PyVal.bool false),
   ("vcfeval_opts", PyVal.list [PyVal.str "--ref-overlap", PyVal.str "--vcf-score-field", PyVal.str "QUAL"]),
   ("sim_opts", PyVal.list [PyVal.str "-l", PyVal.str "150", PyVal.str "-p", PyVal.str "570", PyVal.str "-v", PyVal.str "165", PyVal.str "-e", PyVal.str "0.01", PyVal.str "-i", PyVal.str "0.002"]),
   ("bwa_opts", PyVal.list [])]

def presetMapWholeGenome (docker : Bool) : Dict :=
  [("misc_cores", PyVal.int 1),
   ("misc_mem", PyVal.str "1G"),
   ("misc_disk", PyVal.str "1G"),
   ("construct_cores", PyVal.int 1),
   ("construct_mem", PyVal.str "32G"),
   ("construct_disk", PyVal.str "32G"),
   ("xg_index_cores", PyVal.int 32),
   ("xg_index_mem", PyVal.str "200G"),
   ("xg_index_disk", PyVal.str "200G"),
   ("prune_cores", PyVal.int 2),
   ("prune_mem", PyVal.str "60G"),
   ("prune_disk", PyVal.str "60G"),
   ("kmers_cores", PyVal.int 16),
   ("kmers_mem", PyVal.str "70G"),
   ("kmers_disk", PyVal.str "60G"),
   ("gcsa_index_cores", PyVal.int 32),
   ("gcsa_index_mem", PyVal.str "200G"),
   ("gcsa_index_disk", PyVal.str "200G"),
   ("fq_split_cores", PyVal.int 32),
   ("fq_split_mem", PyVal.str "4G"),
   ("fq_split_disk", PyVal.str "200G"),
   ("gam_index_cores", PyVal.int 6),
   ("alignment_cores", PyVal.int 32),
   ("alignment_mem", PyVal.str "100G"),
   ("alignment_disk", PyVal.str "100G"),
   ("call_chunk_cores", PyVal.int 8),
   ("call_chunk_mem", PyVal.str "100G"),
   ("call_chunk_disk", PyVal.str "100G"),
   ("calling_cores", PyVal.int 2),
   ("calling_mem", PyVal.str "32G"),
   ("calling_disk", PyVal.str "8G"),
   ("vcfeval_cores", PyVal.int 32),
   ("vcfeval_mem", PyVal.str "64G"),
   ("vcfeval_disk", PyVal.str "64G"),
   ("sim_cores", PyVal.int 2),
   ("sim_mem", PyVal.str "60G"),
   ("sim_disk", PyVal.str "200G"),
   ("force_outstore", PyVal.bool false),
   ("container", PyVal.str (if docker then "Docker" else "None")),
   ("vg_docker", PyVal.str "quay.io/vgteam/vg:v1.6.0-442-gd3a69a42-t134-run"),
   ("bcftools_docker", PyVal.str "vandhanak/bcftools:1.3.1"),
   ("tabix_docker", PyVal.str "vandhanak/bcftools:1.3.1"),
   ("samtools_docker", PyVal.str "quay.io/ucsc_cgl/samtools:latest"),
   ("bwa_docker", PyVal.str "quay.io/ucsc_cgl/bwa:latest"),
   ("jq_docker", PyVal.str "devorbitus/ubuntu-bash-jq-curl"),
   ("rtg_docker", PyVal.str "realtimegenomics/rtg-tools:3.8.4"),
   ("pigz_docker", PyVal.str "quay.io/glennhickey/pigz:latest"),
   ("r_docker", PyVal.str "rocker/tidyverse:latest"),
   ("vcflib_docker", PyVal.str "quay.io/biocontainers/vcflib:1.0.0_rc1--0"),
   ("freebayes_docker", PyVal.str "maxulysse/freebayes:1.2.5"),
   ("index_name", PyVal.str "genome"),
   ("prune_opts", PyVal.list [PyVal.list [PyVal.str "-D"], PyVal.list [PyVal.str "-p", PyVal.str "-l", PyVal.str "16", PyVal.str "-S", PyVal.str "-e", PyVal.str "4"], PyVal.list [PyVal.str "-S", PyVal.str "-l", PyVal.str "32"]]),
   ("kmers_opts", PyVal.list [PyVal.str "-g", PyVal.str "-B", PyVal.str "-k", PyVal.str "16"]),
   ("gcsa_opts", PyVal.list [PyVal.str "-X", PyVal.str "3", PyVal.str "-Z", PyVal.str "3000"]),
   ("single_reads_chunk", PyVal.bool false),
   ("reads_per_chunk", PyVal.int 50000000),
   ("map_opts", PyVal.list []),
   ("mpmap_opts", PyVal.list [PyVal.str "-S"]),
   ("overlap", PyVal.int 5000),
   ("call_chunk_size", PyVal.int 2000000),
   ("chunk_context", PyVal.int 50),
   ("filter_opts", PyVal.list [PyVal.str "-r", PyVal.str "0.9", PyVal.str "-fu", PyVal.str "-s", PyVal.str "1000", PyVal.str "-m", PyVal.str "1", PyVal.str "-q", PyVal.str "15", PyVal.str "-D", PyVal.str "999"]),
   ("augment_opts", PyVal.list [PyVal.str "-q", PyVal.str "10"]),
   ("call_opts", PyVal.list []),
   ("genotype_opts", PyVal.list []),
   ("genotype", PyVal.bool false),
   ("vcfeval_opts", PyVal.list [PyVal.str "--ref-overlap", PyVal.str "--vcf-score-field", PyVal.str "QUAL"]),
   ("sim_opts", PyVal.list [PyVal.str "-l", PyVal.str "150", PyVal.str "-p", PyVal.str "570", PyVal.str "-v", PyVal.str "165", PyVal.str "-e", PyVal.str "0.01", PyVal.str "-i", PyVal.str "0.002"]),
   ("bwa_opts", PyVal.list [])]

/-! ### Document loading and the full `apply_config_file_args` -/

/-- `generate_config`: the whole-genome preset text when the flag is
set, the default preset text otherwise.  `docker` is the result of the
`test_docker()` environment probe spliced into the `container:` line. -/
def generateConfigLines (wholeGenome : Bool) (docker : Bool) : List String :=
  if wholeGenome then wholeGenomeConfigLines docker else defaultConfigLines docker

/-- `x.replace('-', '_')` applied to a document key. -/
def canonKey (k : String) : String :=
  (k.toList.map (fun c => if c = '-' then '_' else c)).asString

/-- The fatal error conditions of `apply_config_file_args` (all raised
as `RuntimeError` / `require` failures in the source). -/
inductive LoadError where
  | conflictingSource
  | notFound
  | deprecatedOption
  | parseError
  | typeError
  deriving Repr, DecidableEq

/-- Parse a config text, canonicalize the keys hyphen-to-underscore into
a dict, and reject the deprecated `prune_opts_2` key. -/
def loadParsedConfig (lines : List String) : Except LoadError Dict :=
  match parseDocLines lines with
  | Option.none => Except.error LoadError.parseError
  | some kvs =>
    let parsed := dictOf (kvs.map (fun kv => (canonKey kv.1, kv.2)))
    if containsKey parsed "prune_opts_2" then Except.error LoadError.deprecatedOption
    else Except.ok parsed

/-- `args.__dict__.has_key('whole_genome_config') and
args.whole_genome_config`. -/
def wgFlag (args : Dict) : Bool :=
  match lookupD args "whole_genome_config" with
  | some v => truthy v
  | Option.none => false

/-- Choose the config text: generate a preset when no `config` path is
given (or it is `None`); otherwise reject the combination with the
whole-genome flag, then require the path to exist in the filesystem
`fs` and read it. -/
def resolveConfigSource (args : Dict) (fs : String → Option (List String)) (docker : Bool) :
    Except LoadError (List String) :=
  match lookupD args "config" with
  | Option.none => Except.ok (generateConfigLines (wgFlag args) docker)
  | some PyVal.none => Except.ok (generateConfigLines (wgFlag args) docker)
  | some (PyVal.str p) =>
    if wgFlag args then Except.error LoadError.conflictingSource
    else
      match fs p with
      | Option.none => Except.error LoadError.notFound
      | some lines => Except.ok lines
  | some _ =>
    if wgFlag args then Except.error LoadError.conflictingSource
    else Except.error LoadError.typeError

/-- `apply_config_file_args`: normalize the `*_opts` values of `args` in
place, load (or generate) and validate the config document, and merge
the CLI arguments over it.  The first component of the result is the
CLI mapping as left behind by the in-place normalization; the second is
the resolved options dict or the fatal error. -/
def applyConfigFileArgs (fs : String → Option (List String)) (docker : Bool) (args : Dict) :
    Dict × Except LoadError Dict :=
  let args1 := normalizeArgsOpts args
  let res :=
    match resolveConfigSource args1 fs docker with
    | Except.error e => Except.error e
    | Except.ok lines =>
      match loadParsedConfig lines with
      | Except.error e => Except.error e
      | Except.ok options => Except.ok (mergeArgs options args1)
  (args1, res)

/-! ### Dictionary lemmas -/

theorem lookupD_insertD_self (d : Dict) (k : String) (v : PyVal) :
    lookupD (insertD d k v) k = some v := by
  induction d with
  | nil => simp [insertD, lookupD]
  | cons kv rest ih =>
    obtain ⟨k1, v1⟩ := kv
    by_cases h : k1 = k
    · simp [insertD, h, lookupD]
    · simp [insertD, h, lookupD, ih]

theorem lookupD_insertD_ne (d : Dict) (k1 : String) (v : PyVal) (k : String) (h : k1 ≠ k) :
    lookupD (insertD d k1 v) k = lookupD d k := by
  induction d with
  | nil => simp [insertD, lookupD, h]
  | cons kv rest ih =>
    obtain ⟨k2, v2⟩ := kv
    by_cases h2 : k2 = k1
    · subst h2
      simp [insertD, lookupD, h]
    · simp only [insertD, if_neg h2, lookupD]
      by_cases h3 : k2 = k
      · simp [h3]
      · simp [h3, ih]

theorem containsKey_eq_isSome (d : Dict) (k : String) :
    containsKey d k = (lookupD d k).isSome := by
  induction d with
  | nil => simp [containsKey, lookupD]
  | cons kv rest ih =>
    obtain ⟨k1, v1⟩ := kv
    by_cases h : k1 = k
    · simp [containsKey, lookupD, h]
    · simp [containsKey, lookupD, h, ih]

theorem containsKey_insertD (d : Dict) (k1 : String) (v : PyVal) (k : String) :
    containsKey (insertD d k1 v) k = (decide (k1 = k) || containsKey d k) := by
  induction d with
  | nil => simp [insertD, containsKey]
  | cons kv rest ih =>
    obtain ⟨k2, v2⟩ := kv
    by_cases h2 : k2 = k1
    · subst h2
      by_cases h : k2 = k <;> simp [insertD, containsKey, h]
    · simp only [insertD, if_neg h2, containsKey]
      by_cases h : k2 = k
      · simp [h]
      · simp [h, ih]

theorem insertD_lookup_self (d : Dict) (k : String) (v : PyVal)
    (h : lookupD d k = some v) : insertD d k v = d := by
  induction d with
  | nil => simp [lookupD] at h
  | cons kv rest ih =>
    obtain ⟨k1, v1⟩ := kv
    by_cases h1 : k1 = k
    · subst h1
      have : v1 = v := by simpa [lookupD] using h
      subst this
      simp [insertD]
    · have hrest : lookupD rest k = some v := by simpa [lookupD, h1] using h
      simp [insertD, h1, ih hrest]

/-! ### Merge lemmas -/

theorem lookupD_mergeStep_ne (opts : Dict) (kv : String × PyVal) (k : String)
    (h : kv.1 ≠ k) : lookupD (mergeStep opts kv) k = lookupD opts k := by
  unfold mergeStep
  split
  · exact lookupD_insertD_ne _ _ _ _ h
  · rfl

theorem lookupD_mergeArgs_not_mem (cli : Dict) : ∀ (opts : Dict) (k : String),
    k ∉ cli.map Prod.fst → lookupD (mergeArgs opts cli) k = lookupD opts k := by
  induction cli with
  | nil => intro opts k _; rfl
  | cons kv rest ih =>
    intro opts k h
    rw [List.map_cons, List.mem_cons] at h
    push_neg at h
    have step : mergeArgs opts (kv :: rest) = mergeArgs (mergeStep opts kv) rest := rfl
    rw [step, ih _ _ h.2, lookupD_mergeStep_ne _ _ _ (fun he => h.1 he.symm)]

/-- The merge rule, pointwise: for a key the CLI mapping carries, the
resolved value is the CLI value exactly when the CLI value is truthy or
the key is absent from the base; otherwise the base value survives. -/
theorem lookupD_mergeArgs (cli : Dict) : ∀ (opts : Dict) (k : String) (v : PyVal),
    (cli.map Prod.fst).Nodup → lookupD cli k = some v →
    lookupD (mergeArgs opts cli) k =
      if truthy v = true ∨ lookupD opts k = Option.none then some v else lookupD opts k := by
  induction cli with
  | nil => intro opts k v _ hv; simp [lookupD] at hv
  | cons kv rest ih =>
    intro opts k v hnd hv
    obtain ⟨k1, v1⟩ := kv
    rw [List.map_cons, List.nodup_cons] at hnd
    have step : mergeArgs opts ((k1, v1) :: rest) = mergeArgs (mergeStep opts (k1, v1)) rest := rfl
    by_cases hk : k1 = k
    · subst hk
      have hv1 : v1 = v := by simpa [lookupD] using hv
      subst hv1
      rw [step, lookupD_mergeArgs_not_mem _ _ _ hnd.1]
      unfold mergeStep
      by_cases htv : truthy v1 = true
      · simp [htv, lookupD_insertD_self]
      · have htv2 : truthy v1 = false := by simpa using htv
        cases hb : lookupD opts k1 with
        | none =>
          have hcb : containsKey opts k1 = false := by rw [containsKey_eq_isSome, hb]; rfl
          simp [htv2, hcb, lookupD_insertD_self, hb]
        | some w =>
          have hcb : containsKey opts k1 = true := by rw [containsKey_eq_isSome, hb]; rfl
          simp [htv2, hcb, hb]
    · have hvrest : lookupD rest k = some v := by simpa [lookupD, hk] using hv
      rw [step, ih _ _ _ hnd.2 hvrest, lookupD_mergeStep_ne _ _ _ hk]

/-! ### Claim theorems -/

/-- C1: in the merge step of `apply_config_file_args`, for every key the
CLI mapping carries, the resolved value for that key is the CLI value if
and only if the CLI value is truthy or the key is entirely absent from
the base mapping; otherwise the base value is kept. -/
theorem cli_merge_truthy_precedence (base cli : Dict) (k : String) (v : PyVal)
    (hnd : (cli.map Prod.fst).Nodup) (hv : lookupD cli k = some v) :
    lookupD (mergeArgs base cli) k =
      if truthy v = true ∨ lookupD base k = Option.none then some v else lookupD base k :=
  lookupD_mergeArgs cli base k v hnd hv

/-- Witness for C1 at the two inputs named by the claim: with base
`reads_per_chunk = 10000000` and CLI `reads_per_chunk = 0` the resolved
value is `10000000`; with the key absent from the base and the same CLI
value the resolved value is `0`. -/
theorem cli_merge_truthy_precedence_witness :
    lookupD (mergeArgs [("reads_per_chunk", PyVal.int 10000000)] [("reads_per_chunk", PyVal.int 0)])
        "reads_per_chunk" = some (PyVal.int 10000000) ∧
    lookupD (mergeArgs [] [("reads_per_chunk", PyVal.int 0)]) "reads_per_chunk" = some (PyVal.int 0) := by
  constructor
  · rw [cli_merge_truthy_precedence [("reads_per_chunk", PyVal.int 10000000)]
      [("reads_per_chunk", PyVal.int 0)] "reads_per_chunk" (PyVal.int 0) (by decide) (by decide)]
    decide
  · rw [cli_merge_truthy_precedence [] [("reads_per_chunk", PyVal.int 0)]
      "reads_per_chunk" (PyVal.int 0) (by decide) (by decide)]
    decide

/-! ### Thread-flag stripping lemmas -/

theorem stripFlag_not_mem (t : String) (l : List String) (h : t ∉ l) :
    stripFlag t l = l := by
  induction l with
  | nil => rfl
  | cons a rest ih =>
    rw [List.mem_cons] at h
    push_neg at h
    simp [stripFlag, Ne.symm h.1, ih h.2]

theorem stripFlag_append (t x : String) (pre post : List String) (hpre : t ∉ pre) :
    stripFlag t (pre ++ t :: x :: post) = pre ++ post := by
  induction pre with
  | nil => simp [stripFlag]
  | cons a rest ih =>
    rw [List.mem_cons] at hpre
    push_neg at hpre
    simp [stripFlag, Ne.symm hpre.1, ih hpre.2]

/-- Splitting on arbitrary whitespace characters, following the claim
wording for C3 ("splits it on whitespace"): this is the comparison
definition for the refinement check against `makeOptsList`, which
splits on the space character only. -/
def splitWsAux : List Char → List Char → List String
  | [], acc => [acc.reverse.asString]
  | c :: rest, acc =>
    if c.isWhitespace then acc.reverse.asString :: splitWsAux rest []
    else splitWsAux rest (c :: acc)

/-- Free-text normalization as worded by claim C3: split on whitespace,
discard empty tokens, strip the thread-flag pairs. -/
def specWhitespaceNormalize (s : String) : List String :=
  stripFlag "--threads"
    (stripFlag "-t" ((splitWsAux s.toList []).filter (fun a => a.length != 0)))

/-- C3 counterexample: on free text containing a tab, `make_opts_list`
does not split on whitespace, only on the space character, so the claim
as stated predicts the wrong token list (and in particular a `-t`
hidden behind a tab is not stripped). -/
theorem free_text_whitespace_counterexample :
    specWhitespaceNormalize "-t\t4 -k 16" = ["-k", "16"] ∧
    makeOptsList "-t\t4 -k 16" = ["-t\t4", "-k", "16"] ∧
    makeOptsList "-t\t4 -k 16" ≠ specWhitespaceNormalize "-t\t4 -k 16" := by
  refine ⟨by decide, by decide, by decide⟩

/-- C3 as amended: free text is split on the space character (not on all
whitespace) into tokens, empty tokens are discarded, and a `-t` or
`--threads` token together with the single token following it is removed
regardless of its position; in particular
`makeOptsList "-t 4 -k 16" = ["-k", "16"]`. -/
theorem free_text_normalization (pre post : List String) (x : String)
    (h1 : "-t" ∉ pre) (h2 : "--threads" ∉ pre) (h3 : "-t" ∉ post) (h4 : "--threads" ∉ post)
    (h5 : x ≠ "-t") (_h6 : x ≠ "--threads") :
    stripFlag "--threads" (stripFlag "-t" (pre ++ "-t" :: x :: post)) = pre ++ post ∧
    stripFlag "--threads" (stripFlag "-t" (pre ++ "--threads" :: x :: post)) = pre ++ post ∧
    makeOptsList "-t 4 -k 16" = ["-k", "16"] := by
  refine ⟨?_, ?_, by decide⟩
  · rw [stripFlag_append _ _ _ _ h1]
    exact stripFlag_not_mem _ _ (by simp [h2, h4])
  · rw [stripFlag_not_mem "-t" _
      (by simp [h1, h3, Ne.symm h5, (by decide : ("-t" : String) ≠ "--threads")])]
    exact stripFlag_append _ _ _ _ h2

/-- Witness for C3 (amended) at a concrete input: stripping `-t 4` from
the middle of `["-a", "-t", "4", "-k", "16"]`. -/
theorem free_text_normalization_witness :
    (("-t" ∉ ["-a"] ∧ "--threads" ∉ (["-k", "16"] : List String)) ∧
      stripFlag "--threads" (stripFlag "-t" (["-a"] ++ "-t" :: "4" :: ["-k", "16"])) =
        ["-a"] ++ ["-k", "16"]) ∧
    makeOptsList "-t 4 -k 16" = ["-k", "16"] := by
  have h := free_text_normalization ["-a"] ["-k", "16"] "4" (by decide) (by decide)
    (by decide) (by decide) (by decide) (by decide)
  exact ⟨⟨⟨by decide, by decide⟩, h.1⟩, h.2.2⟩

/-- C2 counterexample: a value that is already an ordered token list is
not thread-flag stripped by the normalization of
`apply_config_file_args` (the `make_opts_list` call is guarded by
`type(...) is str`), so `["--threads", "8", "-X", "3"]` stays as it is
instead of becoming `["-X", "3"]`. -/
theorem list_value_not_thread_stripped :
    normStrVal (PyVal.list [PyVal.str "--threads", PyVal.str "8", PyVal.str "-X", PyVal.str "3"]) =
      PyVal.list [PyVal.str "--threads", PyVal.str "8", PyVal.str "-X", PyVal.str "3"] ∧
    normStrVal (PyVal.list [PyVal.str "--threads", PyVal.str "8", PyVal.str "-X", PyVal.str "3"]) ≠
      PyVal.list [PyVal.str "-X", PyVal.str "3"] := by
  refine ⟨rfl, by decide⟩

/-! ### When the CLI values are already normalized, the normalization
pass is the identity -/

theorem normOptsStep_eq_self (a : Dict) (k : String)
    (h : ∀ s, lookupD a k ≠ some (PyVal.str s)) : normOptsStep a k = a := by
  unfold normOptsStep
  cases hv : lookupD a k with
  | none => rfl
  | some v =>
    rcases v with s | n | b | _ | l
    · exact absurd hv (h s)
    all_goals rfl

theorem foldl_normOptsStep_eq_self (keys : List String) : ∀ (a : Dict),
    (∀ k, k ∈ keys → ∀ s, lookupD a k ≠ some (PyVal.str s)) →
    keys.foldl normOptsStep a = a := by
  induction keys with
  | nil => intro a _; rfl
  | cons k1 rest ih =>
    intro a h
    rw [List.foldl_cons, normOptsStep_eq_self a k1 (h k1 (by simp))]
    exact ih a (fun k hk s => h k (by simp [hk]) s)

theorem map_normStrVal_eq_self (m : List PyVal) (hm : ∀ s, PyVal.str s ∉ m) :
    m.map normStrVal = m := by
  induction m with
  | nil => rfl
  | cons x xs ihm =>
    have hx : normStrVal x = x := by
      rcases x with s | n | b | _ | xl
      · exact absurd (List.mem_cons_self _ _) (hm s)
      all_goals rfl
    simp [hx, ihm (fun s hs => hm s (List.mem_cons_of_mem _ hs))]

theorem normMoreMpmap_eq_self (a : Dict)
    (h : ∀ l, lookupD a "more_mpmap_opts" = some (PyVal.list l) → ∀ s, PyVal.str s ∉ l) :
    normMoreMpmap a = a := by
  unfold normMoreMpmap
  cases hv : lookupD a "more_mpmap_opts" with
  | none => rfl
  | some v =>
    rcases v with s | n | b | _ | l
    · rfl
    · rfl
    · rfl
    · rfl
    · show (if truthy (PyVal.list l) = true then
          insertD a "more_mpmap_opts" (PyVal.list (l.map normStrVal)) else a) = a
      split
      · rw [map_normStrVal_eq_self l (h l hv)]
        exact insertD_lookup_self a "more_mpmap_opts" (PyVal.list l) hv
      · rfl

/-- The whole in-place normalization pass leaves the CLI mapping
unchanged when no sequence-typed entry is a string and no element of
`more_mpmap_opts` is a string. -/
theorem normalizeArgsOpts_eq_self (args : Dict)
    (h1 : ∀ k, k ∈ xOptsKeys → ∀ s, lookupD args k ≠ some (PyVal.str s))
    (h2 : ∀ l, lookupD args "more_mpmap_opts" = some (PyVal.list l) → ∀ s, PyVal.str s ∉ l) :
    normalizeArgsOpts args = args := by
  unfold normalizeArgsOpts
  rw [foldl_normOptsStep_eq_self xOptsKeys args h1]
  exact normMoreMpmap_eq_self args h2

/-- C2 as amended: when a sequence-typed option value is already an
ordered sequence of tokens, normalization returns it entirely unchanged
(no thread-flag stripping is applied to list values); this holds both
for the per-value normalization and through the `*_opts` pass of
`apply_config_file_args`. -/
theorem list_value_passthrough (l : List PyVal) :
    normStrVal (PyVal.list l) = PyVal.list l ∧
    lookupD (normalizeArgsOpts [("map_opts", PyVal.list l)]) "map_opts" =
      some (PyVal.list l) := by
  refine ⟨rfl, ?_⟩
  rw [normalizeArgsOpts_eq_self]
  · simp [lookupD]
  · intro k hk s he
    fin_cases hk <;> simp [lookupD] at he
  · intro m hm s
    simp [lookupD] at hm

/-! ### Idempotence of normalization (C8) -/

theorem normStrVal_idem (v : PyVal) : normStrVal (normStrVal v) = normStrVal v := by
  cases v <;> rfl

/-- The preset mapping selected by the whole-genome switch. -/
def presetMap (wg docker : Bool) : Dict :=
  if wg then presetMapWholeGenome docker else presetMapDefault docker

/-- C8: for both presets and every option in the enumerated
sequence-typed set, normalization of the preset value is idempotent. -/
theorem preset_seq_normalize_idempotent (wg docker : Bool) (k : String) (v : PyVal)
    (_hk : k ∈ xOptsKeys) (_hv : lookupD (presetMap wg docker) k = some v) :
    normStrVal (normStrVal v) = normStrVal v :=
  normStrVal_idem v

/-- Witness for C8 at `map_opts` of the default preset. -/
theorem preset_seq_normalize_idempotent_witness :
    ("map_opts" ∈ xOptsKeys ∧
      lookupD (presetMap false false) "map_opts" = some (PyVal.list [])) ∧
    normStrVal (normStrVal (PyVal.list [])) = normStrVal (PyVal.list []) :=
  ⟨⟨by decide, by decide⟩,
    preset_seq_normalize_idempotent false false "map_opts" (PyVal.list [])
      (by decide) (by decide)⟩

/-! ### Lookup and membership preservation by the normalization pass -/

theorem lookupD_normOptsStep_ne (a : Dict) (k1 k : String) (h : k1 ≠ k) :
    lookupD (normOptsStep a k1) k = lookupD a k := by
  unfold normOptsStep
  cases hv : lookupD a k1 with
  | none => rfl
  | some v =>
    rcases v with s | n | b | _ | l
    · exact lookupD_insertD_ne a k1 _ k h
    all_goals rfl

theorem lookupD_foldl_normOptsStep (keys : List String) : ∀ (a : Dict) (k : String),
    k ∉ keys → lookupD (keys.foldl normOptsStep a) k = lookupD a k := by
  induction keys with
  | nil => intro a k _; rfl
  | cons k1 rest ih =>
    intro a k h
    rw [List.mem_cons] at h
    push_neg at h
    rw [List.foldl_cons, ih _ _ h.2, lookupD_normOptsStep_ne a k1 k (Ne.symm h.1)]

theorem lookupD_normMoreMpmap_ne (a : Dict) (k : String) (h : k ≠ "more_mpmap_opts") :
    lookupD (normMoreMpmap a) k = lookupD a k := by
  unfold normMoreMpmap
  cases hv : lookupD a "more_mpmap_opts" with
  | none => rfl
  | some v =>
    rcases v with s | n | b | _ | l
    · rfl
    · rfl
    · rfl
    · rfl
    · show lookupD (if truthy (PyVal.list l) = true then
          insertD a "more_mpmap_opts" (PyVal.list (l.map normStrVal)) else a) k = lookupD a k
      split
      · exact lookupD_insertD_ne a _ _ k (Ne.symm h)
      · rfl

theorem lookupD_normalizeArgsOpts (args : Dict) (k : String)
    (h1 : k ∉ xOptsKeys) (h2 : k ≠ "more_mpmap_opts") :
    lookupD (normalizeArgsOpts args) k = lookupD args k := by
  unfold normalizeArgsOpts
  rw [lookupD_normMoreMpmap_ne _ _ h2, lookupD_foldl_normOptsStep xOptsKeys args k h1]

theorem wgFlag_normalizeArgsOpts (args : Dict) :
    wgFlag (normalizeArgsOpts args) = wgFlag args := by
  unfold wgFlag
  rw [lookupD_normalizeArgsOpts args "whole_genome_config" (by decide) (by decide)]

theorem containsKey_normOptsStep (a : Dict) (k1 k : String) (h : k1 ≠ k) :
    containsKey (normOptsStep a k1) k = containsKey a k := by
  unfold normOptsStep
  cases hv : lookupD a k1 with
  | none => rfl
  | some v =>
    rcases v with s | n | b | _ | l
    · rw [containsKey_insertD]; simp [h]
    all_goals rfl

theorem containsKey_foldl_normOptsStep (keys : List String) : ∀ (a : Dict) (k : String),
    k ∉ keys → containsKey (keys.foldl normOptsStep a) k = containsKey a k := by
  induction keys with
  | nil => intro a k _; rfl
  | cons k1 rest ih =>
    intro a k h
    rw [List.mem_cons] at h
    push_neg at h
    rw [List.foldl_cons, ih _ _ h.2, containsKey_normOptsStep a k1 k (Ne.symm h.1)]

theorem containsKey_normMoreMpmap_ne (a : Dict) (k : String) (h : k ≠ "more_mpmap_opts") :
    containsKey (normMoreMpmap a) k = containsKey a k := by
  unfold normMoreMpmap
  cases hv : lookupD a "more_mpmap_opts" with
  | none => rfl
  | some v =>
    rcases v with s | n | b | _ | l
    · rfl
    · rfl
    · rfl
    · rfl
    · show containsKey (if truthy (PyVal.list l) = true then
          insertD a "more_mpmap_opts" (PyVal.list (l.map normStrVal)) else a) k = containsKey a k
      split
      · rw [containsKey_insertD]; simp [Ne.symm h]
      · rfl

theorem containsKey_normalizeArgsOpts (args : Dict) (k : String)
    (h1 : k ∉ xOptsKeys) (h2 : k ≠ "more_mpmap_opts") :
    containsKey (normalizeArgsOpts args) k = containsKey args k := by
  unfold normalizeArgsOpts
  rw [containsKey_normMoreMpmap_ne _ _ h2, containsKey_foldl_normOptsStep xOptsKeys args k h1]

/-! ### Membership in the merge result -/

theorem containsKey_mergeArgs_false (cli : Dict) : ∀ (opts : Dict) (k : String),
    containsKey opts k = false → containsKey cli k = false →
    containsKey (mergeArgs opts cli) k = false := by
  induction cli with
  | nil => intro opts k h _; exact h
  | cons kv rest ih =>
    intro opts k h1 h2
    obtain ⟨k1, v1⟩ := kv
    simp only [containsKey, Bool.or_eq_false_iff, decide_eq_false_iff_not] at h2
    have step : mergeArgs opts ((k1, v1) :: rest) = mergeArgs (mergeStep opts (k1, v1)) rest := rfl
    rw [step]
    refine ih _ _ ?_ h2.2
    unfold mergeStep
    split
    · rw [containsKey_insertD]; simp [h2.1, h1]
    · exact h1

/-! ### Projections of `applyConfigFileArgs` -/

theorem applyConfigFileArgs_fst (fs : String → Option (List String)) (docker : Bool) (args : Dict) :
    (applyConfigFileArgs fs docker args).fst = normalizeArgsOpts args := rfl

theorem applyConfigFileArgs_snd (fs : String → Option (List String)) (docker : Bool) (args : Dict) :
    (applyConfigFileArgs fs docker args).snd =
      match resolveConfigSource (normalizeArgsOpts args) fs docker with
      | Except.error e => Except.error e
      | Except.ok lines =>
        match loadParsedConfig lines with
        | Except.error e => Except.error e
        | Except.ok options => Except.ok (mergeArgs options (normalizeArgsOpts args)) := rfl

/-- C9 counterexample: the resolution flow is not pure over the CLI
mapping — a free-text `map_opts` value is overwritten, in the CLI
mapping passed in, by its token list. -/
theorem resolution_mutates_cli_counterexample :
    (applyConfigFileArgs (fun _ => Option.none) false [("map_opts", PyVal.str "-k 16")]).fst =
      [("map_opts", PyVal.list [PyVal.str "-k", PyVal.str "16"])] ∧
    [("map_opts", PyVal.list [PyVal.str "-k", PyVal.str "16"])] ≠
      [("map_opts", PyVal.str "-k 16")] := by
  refine ⟨by decide, by decide⟩

/-- C9 as amended: the resolution flow updates the CLI arguments mapping
in place, tokenizing free-text values of sequence-typed options; when no
sequence-typed CLI entry is free text (and no `more_mpmap_opts` element
is), the CLI mapping is left unchanged, and the merge produces its
result as a new mapping without further modifying the CLI mapping. -/
theorem resolution_pure_when_normalized (args : Dict) (fs : String → Option (List String))
    (docker : Bool)
    (h1 : ∀ k, k ∈ xOptsKeys → ∀ s, lookupD args k ≠ some (PyVal.str s))
    (h2 : ∀ l, lookupD args "more_mpmap_opts" = some (PyVal.list l) → ∀ s, PyVal.str s ∉ l) :
    (applyConfigFileArgs fs docker args).fst = args := by
  rw [applyConfigFileArgs_fst]
  exact normalizeArgsOpts_eq_self args h1 h2

/-- Witness for C9 (amended): a CLI mapping with no free-text
sequence-typed entry passes through resolution unchanged. -/
theorem resolution_pure_when_normalized_witness :
    (applyConfigFileArgs (fun _ => Option.none) false [("index_name", PyVal.str "hg38")]).fst =
      [("index_name", PyVal.str "hg38")] :=
  resolution_pure_when_normalized [("index_name", PyVal.str "hg38")] (fun _ => Option.none) false
    (fun k hk s he => by fin_cases hk <;> simp [lookupD] at he)
    (fun l hl s => by simp [lookupD] at hl)

/-! ### Loader error paths -/

theorem resolveConfigSource_conflict (a : Dict) (fs : String → Option (List String))
    (docker : Bool) (p : String)
    (hc : lookupD a "config" = some (PyVal.str p)) (hw : wgFlag a = true) :
    resolveConfigSource a fs docker = Except.error LoadError.conflictingSource := by
  unfold resolveConfigSource
  rw [hc]
  show (if wgFlag a = true then Except.error LoadError.conflictingSource
      else match fs p with
        | Option.none => Except.error LoadError.notFound
        | some lines => Except.ok lines) = Except.error LoadError.conflictingSource
  rw [hw]
  simp

theorem applyConfig_conflict_aux (args : Dict) (fs : String → Option (List String))
    (docker : Bool) (p : String)
    (hc : lookupD args "config" = some (PyVal.str p)) (hw : wgFlag args = true) :
    (applyConfigFileArgs fs docker args).snd = Except.error LoadError.conflictingSource := by
  rw [applyConfigFileArgs_snd]
  have hc1 : lookupD (normalizeArgsOpts args) "config" = some (PyVal.str p) := by
    rw [lookupD_normalizeArgsOpts args "config" (by decide) (by decide), hc]
  have hw1 : wgFlag (normalizeArgsOpts args) = true := by rw [wgFlag_normalizeArgsOpts, hw]
  rw [resolveConfigSource_conflict _ fs docker p hc1 hw1]

/-- C4: whenever a user document path is supplied and the whole-genome
preset-selection flag is set, resolution fails with the
conflicting-source error, regardless of the filesystem contents. -/
theorem conflicting_source_on_config_with_wg (args : Dict) (p : String)
    (fs : String → Option (List String)) (docker : Bool)
    (hc : lookupD args "config" = some (PyVal.str p)) (hw : wgFlag args = true) :
    (applyConfigFileArgs fs docker args).snd = Except.error LoadError.conflictingSource :=
  applyConfig_conflict_aux args fs docker p hc hw

/-- Witness for C4 at a concrete input: an existing document together
with the whole-genome flag. -/
theorem conflicting_source_on_config_with_wg_witness :
    (applyConfigFileArgs (fun _ => some ["misc-cores: 1"]) false
        [("config", PyVal.str "c"), ("whole_genome_config", PyVal.bool true)]).snd =
      Except.error LoadError.conflictingSource :=
  conflicting_source_on_config_with_wg
    [("config", PyVal.str "c"), ("whole_genome_config", PyVal.bool true)] "c"
    (fun _ => some ["misc-cores: 1"]) false (by decide) (by decide)

/-- C10: with a document path and the whole-genome flag both supplied,
the conflicting-source error is raised before the path's existence is
checked: even for a path that does not exist the failure is
conflicting-source, and not-found is never reported in that case. -/
theorem conflict_checked_before_existence (args : Dict) (p : String)
    (fs : String → Option (List String)) (docker : Bool)
    (hc : lookupD args "config" = some (PyVal.str p)) (hw : wgFlag args = true)
    (_hmiss : fs p = Option.none) :
    (applyConfigFileArgs fs docker args).snd = Except.error LoadError.conflictingSource ∧
    (applyConfigFileArgs fs docker args).snd ≠ Except.error LoadError.notFound := by
  have h := applyConfig_conflict_aux args fs docker p hc hw
  refine ⟨h, ?_⟩
  rw [h]
  intro hcontra
  simp at hcontra

/-- Witness for C10 at a concrete input: the named path exists nowhere
in the filesystem, yet the error is conflicting-source. -/
theorem conflict_checked_before_existence_witness :
    (applyConfigFileArgs (fun _ => Option.none) false
        [("config", PyVal.str "missing"), ("whole_genome_config", PyVal.bool true)]).snd =
      Except.error LoadError.conflictingSource ∧
    (applyConfigFileArgs (fun _ => Option.none) false
        [("config", PyVal.str "missing"), ("whole_genome_config", PyVal.bool true)]).snd ≠
      Except.error LoadError.notFound :=
  conflict_checked_before_existence
    [("config", PyVal.str "missing"), ("whole_genome_config", PyVal.bool true)] "missing"
    (fun _ => Option.none) false (by decide) (by decide) rfl

/-- C5: a user document whose parsed mapping carries the deprecated key
(canonically `prune_opts_2`) is rejected with the deprecated-option
error, whatever else it contains. -/
theorem deprecated_key_rejected (args : Dict) (p : String)
    (fs : String → Option (List String)) (docker : Bool)
    (lines : List String) (kvs : List (String × PyVal))
    (hc : lookupD args "config" = some (PyVal.str p)) (hw : wgFlag args = false)
    (hfs : fs p = some lines) (hparse : parseDocLines lines = some kvs)
    (hdep : containsKey (dictOf (kvs.map (fun kv => (canonKey kv.1, kv.2)))) "prune_opts_2"
      = true) :
    (applyConfigFileArgs fs docker args).snd = Except.error LoadError.deprecatedOption := by
  rw [applyConfigFileArgs_snd]
  have hc1 : lookupD (normalizeArgsOpts args) "config" = some (PyVal.str p) := by
    rw [lookupD_normalizeArgsOpts args "config" (by decide) (by decide), hc]
  have hw1 : wgFlag (normalizeArgsOpts args) = false := by rw [wgFlag_normalizeArgsOpts, hw]
  have hres : resolveConfigSource (normalizeArgsOpts args) fs docker = Except.ok lines := by
    unfold resolveConfigSource
    rw [hc1]
    show (if wgFlag (normalizeArgsOpts args) = true then Except.error LoadError.conflictingSource
        else match fs p with
          | Option.none => Except.error LoadError.notFound
          | some ls => Except.ok ls) = Except.ok lines
    rw [hw1]
    simp [hfs]
  rw [hres]
  have hload : loadParsedConfig lines = Except.error LoadError.deprecatedOption := by
    unfold loadParsedConfig
    rw [hparse]
    simp [hdep]
  show (match loadParsedConfig lines with
    | Except.error e => Except.error e
    | Except.ok options => Except.ok (mergeArgs options (normalizeArgsOpts args))) =
    Except.error LoadError.deprecatedOption
  rw [hload]

/-- Witness for C5 at a concrete document carrying `prune-opts-2`
alongside a well-formed key. -/
theorem deprecated_key_rejected_witness :
    (applyConfigFileArgs
        (fun p => if p = "c" then some ["prune-opts-2: 5", "misc-cores: 1"] else Option.none)
        false [("config", PyVal.str "c")]).snd =
      Except.error LoadError.deprecatedOption :=
  deprecated_key_rejected [("config", PyVal.str "c")] "c"
    (fun p => if p = "c" then some ["prune-opts-2: 5", "misc-cores: 1"] else Option.none) false
    ["prune-opts-2: 5", "misc-cores: 1"]
    [("prune-opts-2", PyVal.int 5), ("misc-cores", PyVal.int 1)]
    (by decide) (by decide) (by decide) (by decide) (by decide)

/-! ### The deprecated key in the merged result (C6) -/

/-- C6 counterexample: a resolution that succeeds and whose result does
contain `prune_opts_2` — the CLI mapping itself carries the key, and the
merge copies CLI keys through unchecked. -/
theorem resolved_contains_deprecated_counterexample :
    (applyConfigFileArgs (fun p => if p = "userdoc" then some ["misc-cores: 1"] else Option.none)
        false [("config", PyVal.str "userdoc"), ("prune_opts_2", PyVal.int 1)]).snd =
      Except.ok
        [("misc_cores", PyVal.int 1), ("config", PyVal.str "userdoc"),
         ("prune_opts_2", PyVal.int 1)] ∧
    containsKey
        [("misc_cores", PyVal.int 1), ("config", PyVal.str "userdoc"),
         ("prune_opts_2", PyVal.int 1)] "prune_opts_2" = true := by
  exact ⟨rfl, rfl⟩

/-- C6 as amended: for every resolution that succeeds, the result
contains no `prune_opts_2` key provided the CLI arguments mapping does
not itself carry that key; the document-derived base is always free of
it. -/
theorem resolved_no_deprecated_when_cli_clean (args : Dict)
    (fs : String → Option (List String)) (docker : Bool) (a1 : Dict) (opts : Dict)
    (hres : applyConfigFileArgs fs docker args = (a1, Except.ok opts))
    (hcli : containsKey args "prune_opts_2" = false) :
    containsKey opts "prune_opts_2" = false := by
  have hsnd : (applyConfigFileArgs fs docker args).snd = Except.ok opts := by rw [hres]
  rw [applyConfigFileArgs_snd] at hsnd
  cases hsrc : resolveConfigSource (normalizeArgsOpts args) fs docker with
  | error e => rw [hsrc] at hsnd; simp at hsnd
  | ok lines =>
    rw [hsrc] at hsnd
    simp only [] at hsnd
    cases hload : loadParsedConfig lines with
    | error e => rw [hload] at hsnd; simp at hsnd
    | ok options =>
      rw [hload] at hsnd
      simp at hsnd
      have hbase : containsKey options "prune_opts_2" = false := by
        unfold loadParsedConfig at hload
        cases hparse : parseDocLines lines with
        | none => rw [hparse] at hload; simp at hload
        | some kvs =>
          rw [hparse] at hload
          simp only [] at hload
          by_cases hdep :
              containsKey (dictOf (kvs.map (fun kv => (canonKey kv.1, kv.2)))) "prune_opts_2"
                = true
          · rw [if_pos hdep] at hload
            simp at hload
          · rw [if_neg hdep] at hload
            have hopt : dictOf (kvs.map (fun kv => (canonKey kv.1, kv.2))) = options := by
              simpa using hload
            rw [← hopt]
            simpa using hdep
      have hcli1 : containsKey (normalizeArgsOpts args) "prune_opts_2" = false := by
        rw [containsKey_normalizeArgsOpts args _ (by decide) (by decide)]
        exact hcli
      rw [← hsnd]
      exact containsKey_mergeArgs_false (normalizeArgsOpts args) options _ hbase hcli1

set_option maxRecDepth 40000 in
/-- Witness for C6 (amended): a clean CLI mapping resolved against a
small user document yields a result without the deprecated key. -/
theorem resolved_no_deprecated_when_cli_clean_witness :
    containsKey
      [("misc_cores", PyVal.int 1), ("config", PyVal.str "userdoc"),
       ("index_name", PyVal.str "hg38")] "prune_opts_2" = false :=
  resolved_no_deprecated_when_cli_clean
    [("config", PyVal.str "userdoc"), ("index_name", PyVal.str "hg38")]
    (fun p => if p = "userdoc" then some ["misc-cores: 1"] else Option.none) false
    [("config", PyVal.str "userdoc"), ("index_name", PyVal.str "hg38")]
    [("misc_cores", PyVal.int 1), ("config", PyVal.str "userdoc"),
     ("index_name", PyVal.str "hg38")]
    rfl rfl

/-! ### Render / load round trip (C7) -/

set_option maxRecDepth 200000 in
/-- C7: rendering either preset (`generate_config`) and parsing the
rendered text back through the document loader reproduces exactly the
originating preset's option values, for either result of the
container-runtime probe. -/
theorem render_load_roundtrip (wg docker : Bool) :
    loadParsedConfig (generateConfigLines wg docker) = Except.ok (presetMap wg docker) := by
  cases wg <;> cases docker <;> rfl

end ToilVG
